import Mathlib

/-!
Verification of the Salesforce MCP example client
(`examples/example-client.py`): a shallow embedding of the JSON-RPC
correlation and result-unwrapping layer, with theorems checking the
claims of the specification against it.

Modelling conventions:
* Python/JSON values are the inductive `Json`.  JSON numbers are split
  into integer literals (`num`) and non-integer numeric literals
  (`decimal`, kept as text): the client never computes with numbers, so
  a float semantics is not needed, only which texts decode.
* Python dicts are association lists in insertion order; `json.loads`
  keeps the last value for a duplicated key at the position of the first key,
  which `dictInsert` reproduces.
* Exceptions become `Except CallError`; each Python exception type that
  the client can raise has its own `CallError` constructor.
* The mutable `request_id` attribute becomes explicit `ClientState`
  threading; the HTTP transport becomes a `TransportOutcome` argument
  (one outcome is consumed per `requests.post`, the source performs
  exactly one post per call).
-/

namespace SalesforceMCPClient

/-- A JSON value as decoded by the Python `json.loads`.  `decimal` holds the
literal text of a non-integer number (fraction/exponent forms and the
non-standard `NaN`/`Infinity` literals that `json.loads` accepts); the
client under verification never computes with such values. -/
inductive Json where
  | null
  | bool (b : Bool)
  | num (n : Int)
  | decimal (lit : String)
  | str (s : String)
  | arr (xs : List Json)
  | obj (kvs : List (String × Json))

/-- Python dict lookup on an insertion-ordered association list. -/
def dictGet? (kvs : List (String × Json)) (k : String) : Option Json :=
  match kvs with
  | [] => none
  | (k2, v) :: t => if k2 = k then some v else dictGet? t k

/-- Python `d[k] = v`: update in place when the key exists, else append.
`json.loads` builds objects this way, so a duplicated key keeps its first
position with the last value. -/
def dictInsert (kvs : List (String × Json)) (k : String) (v : Json) :
    List (String × Json) :=
  match kvs with
  | [] => [(k, v)]
  | (k2, v2) :: t => if k2 = k then (k2, v) :: t else (k2, v2) :: dictInsert t k v

/-- The JSON whitespace characters, as skipped by `json.loads`. -/
def skipWs : List Char → List Char
  | [] => []
  | c :: cs => if c = ' ' ∨ c = '\t' ∨ c = '\n' ∨ c = '\r' then skipWs cs else c :: cs

/-- Value of a hex digit, used for `\uXXXX` string escapes. -/
def hexVal? (c : Char) : Option Nat :=
  if '0' ≤ c ∧ c ≤ '9' then some (c.toNat - 48)
  else if 'a' ≤ c ∧ c ≤ 'f' then some (c.toNat - 87)
  else if 'A' ≤ c ∧ c ≤ 'F' then some (c.toNat - 55)
  else none

/-- Body of a JSON string after the opening quote: returns the decoded
characters and the input after the closing quote.  Strict mode: raw
control characters are rejected, like `json.loads`.  A `\uXXXX` pair of
UTF-16 surrogates is combined; a lone surrogate, which Python would keep
as an unpaired surrogate code unit, has no Lean `Char` counterpart and
decodes to the fallback character of `Char.ofNat`.  The fuel argument only
bounds the recursion (one unit per character consumed); callers supply
more than the input length. -/
def parseStringBody : Nat → List Char → Option (List Char × List Char)
  | 0, _ => none
  | _ + 1, [] => none
  | fuel + 1, c :: cs =>
    if c = Char.ofNat 34 then
      some ([], cs)
    else if c = '\\' then
      match cs with
      | [] => none
      | e :: cs2 =>
        if e = Char.ofNat 34 ∨ e = '\\' ∨ e = '/' then
          (parseStringBody fuel cs2).map (fun p => (e :: p.1, p.2))
        else if e = 'b' then
          (parseStringBody fuel cs2).map (fun p => (Char.ofNat 8 :: p.1, p.2))
        else if e = 'f' then
          (parseStringBody fuel cs2).map (fun p => (Char.ofNat 12 :: p.1, p.2))
        else if e = 'n' then
          (parseStringBody fuel cs2).map (fun p => ('\n' :: p.1, p.2))
        else if e = 'r' then
          (parseStringBody fuel cs2).map (fun p => ('\r' :: p.1, p.2))
        else if e = 't' then
          (parseStringBody fuel cs2).map (fun p => ('\t' :: p.1, p.2))
        else if e = 'u' then
          match cs2 with
          | h1 :: h2 :: h3 :: h4 :: cs3 =>
            match hexVal? h1, hexVal? h2, hexVal? h3, hexVal? h4 with
            | some a, some b, some c2, some d =>
              let u := ((a * 16 + b) * 16 + c2) * 16 + d
              if 55296 ≤ u ∧ u ≤ 56319 then
                match cs3 with
                | e2 :: u2c :: g1 :: g2 :: g3 :: g4 :: cs4 =>
                  if e2 = '\\' ∧ u2c = 'u' then
                    match hexVal? g1, hexVal? g2, hexVal? g3, hexVal? g4 with
                    | some a2, some b2, some c3, some d2 =>
                      let v := ((a2 * 16 + b2) * 16 + c3) * 16 + d2
                      if 56320 ≤ v ∧ v ≤ 57343 then
                        (parseStringBody fuel cs4).map (fun p =>
                          (Char.ofNat (65536 + (u - 55296) * 1024 + (v - 56320)) :: p.1, p.2))
                      else
                        (parseStringBody fuel cs3).map (fun p => (Char.ofNat u :: p.1, p.2))
                    | _, _, _, _ =>
                      (parseStringBody fuel cs3).map (fun p => (Char.ofNat u :: p.1, p.2))
                  else
                    (parseStringBody fuel cs3).map (fun p => (Char.ofNat u :: p.1, p.2))
                | _ =>
                  (parseStringBody fuel cs3).map (fun p => (Char.ofNat u :: p.1, p.2))
              else
                (parseStringBody fuel cs3).map (fun p => (Char.ofNat u :: p.1, p.2))
            | _, _, _, _ => none
          | _ => none
        else none
    else if c.toNat < 32 then none
    else (parseStringBody fuel cs).map (fun p => (c :: p.1, p.2))

/-- Longest digit prefix of the input, and the rest. -/
def digitsSpan : List Char → List Char × List Char
  | [] => ([], [])
  | c :: cs =>
    if c.isDigit then
      let p := digitsSpan cs
      (c :: p.1, p.2)
    else ([], c :: cs)

/-- Numeric value of a digit string. -/
def natOfDigits (acc : Nat) : List Char → Nat
  | [] => acc
  | c :: cs => natOfDigits (acc * 10 + (c.toNat - 48)) cs

/-- Exponent tail of a JSON number, after the `e`/`E`: optional sign then
at least one digit.  Returns the consumed characters and the rest. -/
def parseExpTail : List Char → Option (List Char × List Char)
  | [] => none
  | c :: t =>
    if c = '+' ∨ c = '-' then
      match digitsSpan t with
      | ([], _) => none
      | (ds, rest) => some (c :: ds, rest)
    else
      match digitsSpan (c :: t) with
      | ([], _) => none
      | (ds, rest) => some (ds, rest)

/-- Unsigned JSON number: integer literals become `Json.num`; fraction or
exponent forms become `Json.decimal` holding their literal text.  Leading
zeros are rejected, like `json.loads`. -/
def parseUNumber (cs : List Char) : Option (Json × List Char) :=
  match digitsSpan cs with
  | ([], _) => none
  | (ds, rest) =>
    if 1 < ds.length ∧ ds.head? = some '0' then none
    else
      match rest with
      | '.' :: t =>
        match digitsSpan t with
        | ([], _) => none
        | (fs, rest2) =>
          match rest2 with
          | e :: t2 =>
            if e = 'e' ∨ e = 'E' then
              match parseExpTail t2 with
              | none => none
              | some (es, rest3) =>
                some (.decimal (String.mk (ds ++ '.' :: fs ++ e :: es)), rest3)
            else some (.decimal (String.mk (ds ++ '.' :: fs)), rest2)
          | [] => some (.decimal (String.mk (ds ++ '.' :: fs)), [])
      | e :: t2 =>
        if e = 'e' ∨ e = 'E' then
          match parseExpTail t2 with
          | none => none
          | some (es, rest3) => some (.decimal (String.mk (ds ++ e :: es)), rest3)
        else some (.num (Int.ofNat (natOfDigits 0 ds)), rest)
      | [] => some (.num (Int.ofNat (natOfDigits 0 ds)), [])

/-- A JSON number with its optional leading minus sign. -/
def parseNumber (cs : List Char) : Option (Json × List Char) :=
  match cs with
  | '-' :: t =>
    (parseUNumber t).map (fun p =>
      ((match p.1 with
        | .num n => Json.num (-n)
        | .decimal l => Json.decimal ("-" ++ l)
        | j => j), p.2))
  | _ => parseUNumber cs

mutual

/-- One JSON value, by recursive descent with a fuel bound (the fuel is
in charge of termination only; `Json.parse` supplies more fuel than any
input can consume, one unit per nesting or element step). -/
def parseValue : Nat → List Char → Option (Json × List Char)
  | 0, _ => none
  | fuel + 1, cs =>
    match skipWs cs with
    | 'n' :: 'u' :: 'l' :: 'l' :: r => some (.null, r)
    | 't' :: 'r' :: 'u' :: 'e' :: r => some (.bool true, r)
    | 'f' :: 'a' :: 'l' :: 's' :: 'e' :: r => some (.bool false, r)
    | 'N' :: 'a' :: 'N' :: r => some (.decimal "nan", r)
    | 'I' :: 'n' :: 'f' :: 'i' :: 'n' :: 'i' :: 't' :: 'y' :: r => some (.decimal "inf", r)
    | '-' :: 'I' :: 'n' :: 'f' :: 'i' :: 'n' :: 'i' :: 't' :: 'y' :: r =>
      some (.decimal "-inf", r)
    | c :: r =>
      if c = Char.ofNat 34 then
        (parseStringBody (r.length + 1) r).map (fun p => (Json.str (String.mk p.1), p.2))
      else if c = '[' then
        match skipWs r with
        | ']' :: r2 => some (.arr [], r2)
        | r2 => parseElems fuel r2 []
      else if c = Char.ofNat 123 then
        match skipWs r with
        | c2 :: r3 =>
          if c2 = Char.ofNat 125 then some (.obj [], r3)
          else parseMembers fuel (c2 :: r3) []
        | [] => none
      else if c = '-' ∨ c.isDigit then parseNumber (c :: r)
      else none
    | [] => none

/-- Elements of a JSON array after the opening bracket (non-empty case). -/
def parseElems : Nat → List Char → List Json → Option (Json × List Char)
  | 0, _, _ => none
  | fuel + 1, cs, acc =>
    match parseValue fuel cs with
    | none => none
    | some (v, r) =>
      match skipWs r with
      | ',' :: r2 => parseElems fuel r2 (acc ++ [v])
      | ']' :: r2 => some (.arr (acc ++ [v]), r2)
      | _ => none

/-- Members of a JSON object after the opening brace (non-empty case). -/
def parseMembers : Nat → List Char → List (String × Json) →
    Option (Json × List Char)
  | 0, _, _ => none
  | fuel + 1, cs, acc =>
    match skipWs cs with
    | c :: r =>
      if c = Char.ofNat 34 then
        match parseStringBody (r.length + 1) r with
        | none => none
        | some (kcs, r2) =>
          match skipWs r2 with
          | ':' :: r3 =>
            match parseValue fuel r3 with
            | none => none
            | some (v, r4) =>
              let acc2 := dictInsert acc (String.mk kcs) v
              match skipWs r4 with
              | ',' :: r5 => parseMembers fuel r5 acc2
              | c2 :: r5 =>
                if c2 = Char.ofNat 125 then some (.obj acc2, r5) else none
              | [] => none
          | _ => none
      else none
    | [] => none

end

/-- the Python `json.loads`: one JSON value, with nothing but whitespace
around it. -/
def Json.parse (s : String) : Option Json :=
  match parseValue (s.length + 1) s.data with
  | some (j, r) =>
    match skipWs r with
    | [] => some j
    | _ => none
  | none => none

/-- Python `repr` of a string: quoted, preferring single quotes, with
double quotes when the string holds a single quote and no double quote.
The common escapes are rendered; other characters are kept as they are
(exotic control-character `\xNN` renderings are outside the fragment the
client ever formats). -/
def pythonReprString (s : String) : String :=
  let sq := Char.ofNat 39
  let dq := Char.ofNat 34
  let q := if s.data.contains sq ∧ ¬ s.data.contains dq then dq else sq
  let esc : Char → String := fun c =>
    if c = '\\' then "\\\\"
    else if c = q then "\\" ++ q.toString
    else if c = '\n' then "\\n"
    else if c = '\r' then "\\r"
    else if c = '\t' then "\\t"
    else c.toString
  q.toString ++ String.join (s.data.map esc) ++ q.toString

mutual

/-- Python `repr` of a decoded JSON value (what `str` uses for values
nested inside containers).  A `decimal` is rendered as its literal text,
an approximation of the CPython float formatting that agrees on the texts
the client exchanges. -/
def pyRepr : Json → String
  | .null => "None"
  | .bool true => "True"
  | .bool false => "False"
  | .num n => toString n
  | .decimal lit => lit
  | .str s => pythonReprString s
  | .arr xs => "[" ++ pyReprElems xs ++ "]"
  | .obj kvs => "\x7b" ++ pyReprPairs kvs ++ "\x7d"

/-- Comma-separated `repr` of list elements. -/
def pyReprElems : List Json → String
  | [] => ""
  | [x] => pyRepr x
  | x :: y :: t => pyRepr x ++ ", " ++ pyReprElems (y :: t)

/-- Comma-separated `repr` of dict entries. -/
def pyReprPairs : List (String × Json) → String
  | [] => ""
  | [(k, v)] => pythonReprString k ++ ": " ++ pyRepr v
  | (k, v) :: p :: t =>
    pythonReprString k ++ ": " ++ pyRepr v ++ ", " ++ pyReprPairs (p :: t)

end

/-- Python `str` of a value, as an f-string renders it: a string is
inserted as-is, every other value through `repr`. -/
def pyStr : Json → String
  | .str s => s
  | v => pyRepr v

/-- The exceptions the client pipeline can raise, one constructor per
Python exception type:
* `transportError` — `requests` exceptions from `post`/`raise_for_status`
  (connection failure, timeout, or an HTTP error status);
* `responseDecodeError` — `response.json()` could not decode the body;
* `protocolError` — the plain `Exception` raised when the decoded
  response carries an `error` key, holding only its message string;
* `payloadDecodeError` — `json.loads` failed on the text of a tool result;
* `keyError`, `typeError`, `attributeError`, `indexError` — the
  corresponding Python built-in exceptions from unguarded accesses. -/
inductive TransportErrorKind where
  | connectionFailure
  | timeout
  | httpStatus (code : Nat)

inductive CallError where
  | transportError (k : TransportErrorKind)
  | responseDecodeError
  | protocolError (msg : String)
  | payloadDecodeError
  | keyError (key : String)
  | typeError
  | attributeError
  | indexError

/-- Whether the first list occurs at the head of the second. -/
def hasSubAt : List Char → List Char → Bool
  | [], _ => true
  | _ :: _, [] => false
  | a :: as, b :: bs => a = b && hasSubAt as bs

/-- Whether the first list occurs anywhere inside the second (the Python
`in` on strings). -/
def hasSub (needle hay : List Char) : Bool :=
  hasSubAt needle hay ||
    (match hay with
     | [] => false
     | _ :: t => hasSub needle t)

/-- Python `k in v` for a decoded value: dict key membership, list
element membership (`==` against the string `k`, false for non-strings),
substring test on a string, `TypeError` otherwise. -/
def pyContains (v : Json) (k : String) : Except CallError Bool :=
  match v with
  | .obj kvs => .ok (dictGet? kvs k).isSome
  | .arr xs =>
    .ok (xs.any (fun x =>
      match x with
      | .str s => s == k
      | _ => false))
  | .str s => .ok (hasSub k.data s.data)
  | _ => .error .typeError

/-- Python `v[k]` with a string key: dict lookup (`KeyError` when the key
is absent), `TypeError` on any non-dict. -/
def pySubscriptStr (v : Json) (k : String) : Except CallError Json :=
  match v with
  | .obj kvs =>
    match dictGet? kvs k with
    | some x => .ok x
    | none => .error (.keyError k)
  | _ => .error .typeError

/-- Python `v[i]` with a non-negative int index: list or string indexing
(`IndexError` out of range), `KeyError` on a dict without that key,
`TypeError` otherwise. -/
def pySubscriptNat (v : Json) (i : Nat) : Except CallError Json :=
  match v with
  | .arr xs =>
    match xs[i]? with
    | some x => .ok x
    | none => .error .indexError
  | .str s =>
    match s.data[i]? with
    | some c => .ok (.str c.toString)
    | none => .error .indexError
  | .obj _ => .error (.keyError (toString i))
  | _ => .error .typeError

/-- Python `len(v)`: defined for strings, lists and dicts, `TypeError`
otherwise. -/
def pyLen (v : Json) : Except CallError Nat :=
  match v with
  | .str s => .ok s.length
  | .arr xs => .ok xs.length
  | .obj kvs => .ok kvs.length
  | _ => .error .typeError

/-- Python `json.loads(v)`: decodes a string argument, `TypeError` on a
non-string, `payloadDecodeError` when the text is not valid JSON. -/
def jsonLoads (v : Json) : Except CallError Json :=
  match v with
  | .str s =>
    match Json.parse s with
    | some j => .ok j
    | none => .error .payloadDecodeError
  | _ => .error .typeError

/-- The error/result discrimination of `_call_jsonrpc` applied to the
decoded response:
`if "error" in result: raise Exception(f"MCP Error: ...")` then
`return result.get("result", {})`.  The message of the raised exception is
the f-string rendering of the error payload; `.get` on a non-dict
response is the Python `AttributeError`. -/
def resolveResponse (r : Json) : Except CallError Json :=
  match pyContains r "error" with
  | .error e => .error e
  | .ok true =>
    match pySubscriptStr r "error" with
    | .error e => .error e
    | .ok payload => .error (.protocolError ("MCP Error: " ++ pyStr payload))
  | .ok false =>
    match r with
    | .obj kvs => .ok ((dictGet? kvs "result").getD (.obj []))
    | _ => .error .attributeError

/-- The per-instance state of the client: the `request_id` counter set to
`0` by the constructor and incremented by `_next_id`. -/
structure ClientState where
  request_id : Nat

/-- `_next_id`: increment the counter and return it. -/
def next_id (st : ClientState) : Nat × ClientState :=
  (st.request_id + 1, ClientState.mk (st.request_id + 1))

/-- What the transport does for one `requests.post`: fails to connect,
times out, or replies with an HTTP status code and a body. -/
inductive TransportOutcome where
  | connectionFailure
  | timeout
  | reply (status : Nat) (body : String)

/-- Everything observable about one `_call_jsonrpc` invocation: the
request body it posted, the returned value or raised exception, and the
client state afterwards. -/
structure CallTrace where
  sent : Json
  outcome : Except CallError Json
  state : ClientState

/-- `_call_jsonrpc`: build the payload (allocating the id before any
transport interaction), post it once, `raise_for_status` (which raises
for status codes 400–599, the documented behaviour of `requests`), decode the
body, and resolve the error/result fields.  `params or {}` collapses a
missing params mapping to an empty one. -/
def call_jsonrpc (method : String) (params : Option (List (String × Json)))
    (st : ClientState) (t : TransportOutcome) : CallTrace :=
  let p := next_id st
  let payload := Json.obj
    [("jsonrpc", .str "2.0"),
     ("id", .num (Int.ofNat p.1)),
     ("method", .str method),
     ("params", .obj (params.getD []))]
  let outcome : Except CallError Json :=
    match t with
    | .connectionFailure => .error (.transportError .connectionFailure)
    | .timeout => .error (.transportError .timeout)
    | .reply status body =>
      if 400 ≤ status ∧ status < 600 then
        .error (.transportError (.httpStatus status))
      else
        match Json.parse body with
        | none => .error .responseDecodeError
        | some j => resolveResponse j
  CallTrace.mk payload outcome p.2

/-- `call_tool`: the generic `tools/call` request with the tool name and
its argument mapping. -/
def call_tool (tool_name : String) (arguments : List (String × Json))
    (st : ClientState) (t : TransportOutcome) : CallTrace :=
  call_jsonrpc "tools/call"
    (some [("name", .str tool_name), ("arguments", .obj arguments)]) st t

/-- The result-unwrapping step shared (by textual duplication in the
source) by `query`, `tooling_query`, `describe_object` and
`retrieve_metadata`:
`if "content" in result and len(result["content"]) > 0:` then
`return json.loads(result["content"][0]["text"])` else
`return result`. -/
def unwrap_tool_result (result : Json) : Except CallError Json :=
  match pyContains result "content" with
  | .error e => .error e
  | .ok b =>
    if b then
      match pySubscriptStr result "content" with
      | .error e => .error e
      | .ok content =>
        match pyLen content with
        | .error e => .error e
        | .ok n =>
          if 0 < n then
            match pySubscriptNat content 0 with
            | .error e => .error e
            | .ok item =>
              match pySubscriptStr item "text" with
              | .error e => .error e
              | .ok t => jsonLoads t
          else .ok result
    else .ok result

/-- Applies the unwrapping step to the result of one call; an exception raised
by the call itself propagates unchanged. -/
def unwrapAfter (c : CallTrace) : CallTrace :=
  CallTrace.mk c.sent
    (match c.outcome with
     | .error e => .error e
     | .ok r => unwrap_tool_result r)
    c.state

/-- The `query` operation of the client: `tools/call` of the `query` tool with
`{query: soql}`, then unwrap. -/
def query (soql : String) (st : ClientState) (t : TransportOutcome) : CallTrace :=
  unwrapAfter (call_tool "query" [("query", .str soql)] st t)

/-- The `tooling_query` operation of the client. -/
def tooling_query (q : String) (st : ClientState) (t : TransportOutcome) : CallTrace :=
  unwrapAfter (call_tool "tooling-query" [("query", .str q)] st t)

/-- The `describe_object` operation of the client. -/
def describe_object (object_name : String) (detailed : Bool)
    (st : ClientState) (t : TransportOutcome) : CallTrace :=
  unwrapAfter (call_tool "describe-object"
    [("objectName", .str object_name), ("detailed", .bool detailed)] st t)

/-- The `retrieve_metadata` operation of the client. -/
def retrieve_metadata (metadata_type : String) (full_names : List Json)
    (st : ClientState) (t : TransportOutcome) : CallTrace :=
  unwrapAfter (call_tool "metadata-retrieve"
    [("type", .str metadata_type), ("fullNames", .arr full_names)] st t)

/-- The connection-setup operation of the client (the method string is
`initialize`): a bare `_call_jsonrpc` with no params. -/
def mcpInit (st : ClientState) (t : TransportOutcome) : CallTrace :=
  call_jsonrpc "initialize" none st t

/-- The `list_tools` operation of the client. -/
def list_tools (st : ClientState) (t : TransportOutcome) : CallTrace :=
  call_jsonrpc "tools/list" none st t

/-- One call in a sequence of `_call_jsonrpc` invocations against the
same instance: the method, the optional params, and what the transport
does for it. -/
structure CallSpec where
  method : String
  params : Option (List (String × Json))
  transport : TransportOutcome

/-- A sequence of calls through one client instance, threading the
instance state; one transport outcome is consumed per call. -/
def runCalls : List CallSpec → ClientState → List CallTrace
  | [], _ => []
  | s :: rest, st =>
    let c := call_jsonrpc s.method s.params st s.transport
    c :: runCalls rest c.state

/-- The correlation id a request body carries, when it has one. -/
def requestIdOf (j : Json) : Option Int :=
  match j with
  | .obj kvs =>
    match dictGet? kvs "id" with
    | some (.num n) => some n
    | _ => none
  | _ => none

/-- Whether an outcome is a raised transport failure. -/
def isTransportError : Except CallError Json → Bool
  | .error (.transportError _) => true
  | _ => false

end SalesforceMCPClient


namespace SalesforceMCPClient

/-- The ids attached to a call sequence started in any state `st` are the
consecutive integers from `st.request_id + 1` on, one per call, whatever the transport outcome of
each call is. -/
theorem runCalls_ids (calls : List CallSpec) (st : ClientState) :
    (runCalls calls st).map (fun c => requestIdOf c.sent)
      = (List.range' (st.request_id + 1) calls.length).map
          (fun n => some (Int.ofNat n)) := by
  induction calls generalizing st with
  | nil => rfl
  | cons s rest ih =>
    simp only [runCalls, List.map_cons, List.length_cons, List.range'_succ]
    refine congrArg₂ (· :: ·) rfl ?_
    exact ih (ClientState.mk (st.request_id + 1))

/-- C1: over any sequence of N calls made through one client instance via
`_call_jsonrpc` (hence through any facade operation), the ids attached to
the outbound request bodies are exactly 1, 2, ..., N — strictly
increasing, no repeats, no skips — independent of the transport outcome
of each call (success, transport failure, protocol error or decode error). -/
theorem request_ids_sequential (calls : List CallSpec) :
    (runCalls calls (ClientState.mk 0)).map (fun c => requestIdOf c.sent)
      = (List.range' 1 calls.length).map (fun n => some (Int.ofNat n)) :=
  runCalls_ids calls (ClientState.mk 0)

/-- C2: when the decoded response mapping carries an `error` key — even
with a `result` key also present — `_call_jsonrpc` raises the protocol
error built from the error payload of the server instead of returning the
result: the error branch takes precedence. -/
theorem error_field_takes_precedence (kvs : List (String × Json)) (e v : Json)
    (he : dictGet? kvs "error" = some e)
    (hv : dictGet? kvs "result" = some v) :
    resolveResponse (.obj kvs)
      = .error (.protocolError ("MCP Error: " ++ pyStr e)) := by
  simp [resolveResponse, pyContains, pySubscriptStr, he]

/-- Witness for C2 at a response carrying both `result` and `error`. -/
theorem error_field_takes_precedence_witness :
    resolveResponse (.obj [("result", .num 7), ("error", .str "boom")])
      = .error (.protocolError "MCP Error: boom") :=
  error_field_takes_precedence _ (.str "boom") (.num 7) rfl rfl

/-- C3: when the `content` field of a tool-call result is a non-empty list,
unwrapping returns the JSON decoding of the `text` field of the first
element. -/
theorem unwrap_decodes_first_text (kvs : List (String × Json)) (x : Json)
    (xs : List Json) (t : String) (j : Json)
    (hc : dictGet? kvs "content" = some (.arr (x :: xs)))
    (ht : pySubscriptStr x "text" = .ok (.str t))
    (hp : Json.parse t = some j) :
    unwrap_tool_result (.obj kvs) = .ok j := by
  have hcs : pySubscriptStr (.obj kvs) "content" = .ok (.arr (x :: xs)) := by
    simp [pySubscriptStr, hc]
  simp [unwrap_tool_result, pyContains, hc, hcs, pyLen, pySubscriptNat, ht,
    jsonLoads, hp]

/-- Witness for C3: the result `{content: [{type: "text",
text: "{\"a\":1}"}]}` unwraps to the mapping `{a: 1}`. -/
theorem unwrap_decodes_first_text_witness :
    unwrap_tool_result (.obj [("content",
        .arr [.obj [("type", .str "text"), ("text", .str "\x7b\"a\":1\x7d")]])])
      = .ok (.obj [("a", .num 1)]) :=
  unwrap_decodes_first_text _ _ [] "\x7b\"a\":1\x7d" _ rfl rfl rfl

/-- C4: the `query` operation with the SOQL string
`SELECT Id FROM Account LIMIT 1` sends exactly the JSON-RPC body
`{jsonrpc: "2.0", id: previous + 1, method: "tools/call",
params: {name: "query", arguments: {query: ...}}}`. -/
theorem query_request_shape (st : ClientState) (t : TransportOutcome) :
    (query "SELECT Id FROM Account LIMIT 1" st t).sent
      = .obj [("jsonrpc", .str "2.0"),
              ("id", .num (Int.ofNat (st.request_id + 1))),
              ("method", .str "tools/call"),
              ("params", .obj [("name", .str "query"),
                 ("arguments", .obj [("query",
                    .str "SELECT Id FROM Account LIMIT 1")])])] := rfl

/-- C5: when the `text` field of the first content item holds a string that is
not valid JSON, unwrapping raises the payload decode failure — it is not
swallowed and no fallback value is returned. -/
theorem unwrap_undecodable_text_fails (kvs : List (String × Json)) (x : Json)
    (xs : List Json) (t : String)
    (hc : dictGet? kvs "content" = some (.arr (x :: xs)))
    (ht : pySubscriptStr x "text" = .ok (.str t))
    (hp : Json.parse t = none) :
    unwrap_tool_result (.obj kvs) = .error .payloadDecodeError := by
  have hcs : pySubscriptStr (.obj kvs) "content" = .ok (.arr (x :: xs)) := by
    simp [pySubscriptStr, hc]
  simp [unwrap_tool_result, pyContains, hc, hcs, pyLen, pySubscriptNat, ht,
    jsonLoads, hp]

/-- Witness for C5 at `{content: [{type: "text", text: "not-json"}]}`. -/
theorem unwrap_undecodable_text_fails_witness :
    unwrap_tool_result (.obj [("content",
        .arr [.obj [("type", .str "text"), ("text", .str "not-json")]])])
      = .error .payloadDecodeError :=
  unwrap_undecodable_text_fails _ _ [] "not-json" rfl rfl rfl

/-- C6: a decoded response mapping with neither a `result` key nor an
`error` key resolves successfully to the empty mapping — the absence of
`error` is success even with `result` absent too. -/
theorem resolve_absent_fields_empty_map (kvs : List (String × Json))
    (he : dictGet? kvs "error" = none)
    (hr : dictGet? kvs "result" = none) :
    resolveResponse (.obj kvs) = .ok (.obj []) := by
  simp [resolveResponse, pyContains, pySubscriptStr, he, hr]

/-- Witness for C6 at a response with only an `id` field. -/
theorem resolve_absent_fields_empty_map_witness :
    resolveResponse (.obj [("id", .num 1)]) = .ok (.obj []) :=
  resolve_absent_fields_empty_map _ rfl rfl

/-- Counterexample to C7 as stated: at the response `{error: "boom"}` the
raised failure carries the string `MCP Error: boom`, which differs from
the payload `boom` the server sent — the payload is embedded in a transformed
rendering, not attached unmodified. -/
theorem protocol_error_payload_transformed :
    resolveResponse (.obj [("error", .str "boom")])
      = .error (.protocolError "MCP Error: boom")
    ∧ ("MCP Error: boom" : String) ≠ "boom" :=
  ⟨rfl, by decide⟩

/-- C7 (amended): whenever resolution fails with a protocol error, the
message of the raised failure is the constant prefix `MCP Error: ` followed by
the Python string rendering of the `error` payload of the response; the
structured payload itself is not attached. -/
theorem protocol_error_message_form (kvs : List (String × Json)) (e : Json)
    (he : dictGet? kvs "error" = some e) :
    resolveResponse (.obj kvs)
      = .error (.protocolError ("MCP Error: " ++ pyStr e)) := by
  simp [resolveResponse, pyContains, pySubscriptStr, he]

/-- Witness for the amended C7 at the response `{error: "denied"}`. -/
theorem protocol_error_message_form_witness :
    resolveResponse (.obj [("jsonrpc", .str "2.0"), ("error", .str "denied")])
      = .error (.protocolError "MCP Error: denied") :=
  protocol_error_message_form _ (.str "denied") rfl

/-- Counterexample to C8 as stated: a 304 reply is a non-2xx HTTP status,
yet `raise_for_status` (which raises only for 400–599) lets it through,
so the call does not surface a transport failure — here it resolves
successfully to the empty mapping. -/
theorem non_2xx_not_always_transport_error :
    isTransportError (call_jsonrpc "tools/list" none (ClientState.mk 0)
        (.reply 304 "\x7b\x7d")).outcome = false
    ∧ (call_jsonrpc "tools/list" none (ClientState.mk 0)
        (.reply 304 "\x7b\x7d")).outcome = .ok (.obj []) :=
  ⟨rfl, rfl⟩

/-- C8 (amended): a network failure, a timeout, or a 4xx/5xx HTTP status
(the statuses `raise_for_status` raises for) surfaces as a transport
failure, a kind distinct from the protocol error raised for a response
carrying an `error` field; the failure propagates from the single send of
that call, which still allocates exactly one id. -/
theorem transport_failure_kinds (m : String)
    (p : Option (List (String × Json))) (st : ClientState) (s : Nat)
    (b : String) (h4 : 400 ≤ s) (h6 : s < 600) :
    (call_jsonrpc m p st .connectionFailure).outcome
        = .error (.transportError .connectionFailure)
    ∧ (call_jsonrpc m p st .timeout).outcome
        = .error (.transportError .timeout)
    ∧ (call_jsonrpc m p st (.reply s b)).outcome
        = .error (.transportError (.httpStatus s))
    ∧ (call_jsonrpc m p st .connectionFailure).state.request_id
        = st.request_id + 1
    ∧ ∀ k msg, CallError.transportError k ≠ CallError.protocolError msg := by
  refine ⟨rfl, rfl, ?_, rfl, fun k msg h => CallError.noConfusion h⟩
  simp [call_jsonrpc, h4, h6]

/-- Witness for the amended C8 at a 500 status. -/
theorem transport_failure_kinds_witness :
    (call_jsonrpc "tools/list" none (ClientState.mk 0)
        (.reply 500 "oops")).outcome
      = .error (.transportError (.httpStatus 500)) :=
  (transport_failure_kinds "tools/list" none (ClientState.mk 0) 500 "oops"
    (by decide) (by decide)).2.2.1

/-- C9: a tool-call result without a `content` key, or whose `content` is
the empty list, unwraps to itself unchanged. -/
theorem unwrap_identity_without_content (kvs : List (String × Json))
    (h : dictGet? kvs "content" = none
       ∨ dictGet? kvs "content" = some (.arr [])) :
    unwrap_tool_result (.obj kvs) = .ok (.obj kvs) := by
  rcases h with h | h
  · simp [unwrap_tool_result, pyContains, h]
  · have hcs : pySubscriptStr (.obj kvs) "content" = .ok (.arr []) := by
      simp [pySubscriptStr, h]
    simp [unwrap_tool_result, pyContains, h, hcs, pyLen]

/-- Witness for C9 at a result with no `content` key. -/
theorem unwrap_identity_without_content_witness :
    unwrap_tool_result (.obj [("totalSize", .num 0)])
      = .ok (.obj [("totalSize", .num 0)]) :=
  unwrap_identity_without_content _ (Or.inl rfl)

/-- C10: a non-empty `content` list whose first element has no `text` key
makes unwrapping fail with the missing-key error from the unguarded
`result["content"][0]["text"]` access — neither the identity fallback nor
the payload decode failure. -/
theorem unwrap_missing_text_raises_keyerror (kvs : List (String × Json))
    (ykvs : List (String × Json)) (xs : List Json)
    (hc : dictGet? kvs "content" = some (.arr (.obj ykvs :: xs)))
    (ht : dictGet? ykvs "text" = none) :
    unwrap_tool_result (.obj kvs) = .error (.keyError "text")
    ∧ CallError.keyError "text" ≠ CallError.payloadDecodeError := by
  constructor
  · have hcs : pySubscriptStr (.obj kvs) "content"
        = .ok (.arr (.obj ykvs :: xs)) := by
      simp [pySubscriptStr, hc]
    have hx : pySubscriptStr (.obj ykvs) "text" = .error (.keyError "text") := by
      simp [pySubscriptStr, ht]
    simp [unwrap_tool_result, pyContains, hc, hcs, pyLen, pySubscriptNat, hx]
  · exact fun h => CallError.noConfusion h

/-- Witness for C10 at `{content: [{type: "text"}]}`. -/
theorem unwrap_missing_text_raises_keyerror_witness :
    unwrap_tool_result (.obj [("content", .arr [.obj [("type", .str "text")]])])
      = .error (.keyError "text")
    ∧ CallError.keyError "text" ≠ CallError.payloadDecodeError :=
  unwrap_missing_text_raises_keyerror _ _ [] rfl rfl

end SalesforceMCPClient
